import Mathlib

/-!
Verification of the fleece repository's image acquisition/caching layer
(`image_service.py`) and the user-card persistence layer
(`pages/my_credit_cards.py`), via a shallow embedding in Lean 4.

Modelling conventions:
* Bytes (`requests.Response.content`) are `List Nat`.
* Time (`time.time()`) is a `Nat` passed explicitly to each call.
* The outcome of an HTTP GET (`requests.get`) is an explicit oracle value
  `FetchOutcome`: either a raised exception (network error / timeout) or a
  response with a status code and a body.  The `try/except` in the source is
  translated by matching on this outcome.
* `IMAGE_CACHE` (a Python dict) is an association list keyed by URL, and the
  `functools.lru_cache(maxsize=32)` memoisation wrapped around
  `cached_image_fetch` is a most-recent-first association list truncated to
  32 entries, with recency updated on hit.
* PIL images are immutable descriptions (`ImageData`: size, background, draw
  ops).  Object identity / mutation (`Image.copy()`) is modelled by a heap:
  a list of `ImageData`, with references being indices; `copy` allocates a
  fresh cell.  The drawing primitives are pure and total, so the branch of
  `display_card_image` that returns `None` (placeholder regeneration itself
  failing) is unreachable in the model.
* Each embedded call reports, besides its result and the successor state,
  whether it issued a network request (`net`), so cache-hit claims are
  statable.
-/

/-- Byte strings (`bytes` in Python) as lists of byte values. -/
abbrev ByteSeq := List Nat

/-- Outcome of `requests.get(image_url, timeout=5)`: either a raised
exception (connection error, timeout, ...) or a response carrying an HTTP
status code and a body. -/
inductive FetchOutcome where
  | exn : FetchOutcome
  | resp (status : Nat) (body : ByteSeq) : FetchOutcome
deriving DecidableEq

/-- Embedding of the call `requests.get(...)`: an exception outcome
becomes `.error`, a response becomes `.ok (status, body)`. -/
def requestsGet (outcome : FetchOutcome) : Except Unit (Nat × ByteSeq) :=
  match outcome with
  | .exn => .error ()
  | .resp status body => .ok (status, body)

/-- `CACHE_EXPIRY = 3600` (image_service.py line 50): cache expiry in
seconds (1 hour). -/
def CACHE_EXPIRY : Nat := 3600

/-- The dict cache `IMAGE_CACHE = {}` of image_service.py line 49:
`{url: (timestamp, content)}`, as an association list. -/
abbrev ImageCache := List (String × Nat × ByteSeq)

/-- Dict lookup `IMAGE_CACHE[image_url]` (guarded by
`image_url in IMAGE_CACHE`). -/
def lookupCache (c : ImageCache) (url : String) : Option (Nat × ByteSeq) :=
  (c.find? (fun e => e.1 == url)).map (fun e => e.2)

/-- Dict store `IMAGE_CACHE[image_url] = (time.time(), response.content)`
(image_service.py line 85). -/
def storeCache (c : ImageCache) (url : String) (now : Nat) (body : ByteSeq) :
    ImageCache :=
  (url, now, body) :: c.filter (fun e => !(e.1 == url))

/-- The memoisation table of `functools.lru_cache(maxsize=32)` applied to
`cached_image_fetch`: pairs of the argument URL and the memoised return
value (which may be `none`, i.e. Python `None`), most recently used first. -/
abbrev LruMemo := List (String × Option ByteSeq)

/-- Memo lookup: `some v` when a previous call with this URL was memoised
with return value `v`. -/
def memoLookup (m : LruMemo) (url : String) : Option (Option ByteSeq) :=
  (m.find? (fun e => e.1 == url)).map (fun e => e.2)

/-- On an lru_cache hit the entry moves to most-recently-used position. -/
def memoTouch (m : LruMemo) (url : String) : LruMemo :=
  match m.find? (fun e => e.1 == url) with
  | some e => e :: m.filter (fun e2 => !(e2.1 == url))
  | none => m

/-- On an lru_cache miss the computed value is memoised; with the table at
capacity (32) the least recently used entry is evicted. -/
def memoInsert (m : LruMemo) (url : String) (v : Option ByteSeq) : LruMemo :=
  ((url, v) :: m).take 32

/-- The module-level mutable state of image_service.py: the dict cache
`IMAGE_CACHE` and the lru_cache memo table of `cached_image_fetch`. -/
structure ImageServiceState where
  imageCache : ImageCache
  lruMemo : LruMemo
deriving DecidableEq

/-- State at module load: both caches empty. -/
def initState : ImageServiceState := ⟨[], []⟩

/-- Result of one call to (the embedded) `cached_image_fetch`: the returned
value, the successor module state, and whether an HTTP request was issued. -/
structure FetchResult where
  result : Option ByteSeq
  state : ImageServiceState
  net : Bool
deriving DecidableEq

/-- The fetch-and-store part of `cached_image_fetch` (image_service.py
lines 80-90): `try: response = requests.get(url, timeout=5); if
response.status_code == 200: IMAGE_CACHE[url] = (time.time(),
response.content); return response.content; except: pass; return None`. -/
def fetchAndStore (st : ImageServiceState) (url : String) (now : Nat)
    (outcome : FetchOutcome) : FetchResult :=
  match requestsGet outcome with
  | .error _ => ⟨none, st, true⟩
  | .ok (status, body) =>
      if status = 200 then
        ⟨some body, { st with imageCache := storeCache st.imageCache url now body }, true⟩
      else
        ⟨none, st, true⟩

/-- The body of `cached_image_fetch` (image_service.py lines 72-90),
before the lru_cache wrapper: check the dict cache, return the entry if
present and younger than `CACHE_EXPIRY`, else fetch. -/
def cachedImageFetchBody (st : ImageServiceState) (url : String) (now : Nat)
    (outcome : FetchOutcome) : FetchResult :=
  match lookupCache st.imageCache url with
  | some (timestamp, content) =>
      if now - timestamp < CACHE_EXPIRY then ⟨some content, st, false⟩
      else fetchAndStore st url now outcome
  | none => fetchAndStore st url now outcome

/-- `cached_image_fetch` as decorated by `functools.lru_cache(maxsize=32)`
(image_service.py lines 52-90): on a memo hit the body is not executed at
all; on a miss the body runs and its return value (even `None`) is
memoised. -/
def cached_image_fetch (st : ImageServiceState) (url : String) (now : Nat)
    (outcome : FetchOutcome) : FetchResult :=
  match memoLookup st.lruMemo url with
  | some v => ⟨v, { st with lruMemo := memoTouch st.lruMemo url }, false⟩
  | none =>
      let r := cachedImageFetchBody st url now outcome
      ⟨r.result, { r.state with lruMemo := memoInsert r.state.lruMemo url r.result }, r.net⟩

/-- RGB colour triple. -/
structure RGB where
  r : Nat
  g : Nat
  b : Nat
deriving DecidableEq

/-- One PIL `ImageDraw` operation used by image_service.py. -/
inductive DrawOp where
  | rect (x0 y0 x1 y1 : Nat) (fill : RGB)
  | text (x y : Nat) (s : String) (fill : RGB)
deriving DecidableEq

/-- A PIL image as produced by this module: its size, background colour and
the list of draw operations applied to it. -/
structure ImageData where
  width : Nat
  height : Nat
  background : RGB
  ops : List DrawOp
deriving DecidableEq

/-- The default-card-image drawing recipe, written twice in the source:
once at module level for `DEFAULT_CARD_IMAGE` (image_service.py lines
35-43) and once in the last-resort fallback of `display_card_image`
(lines 133-141).  340x220, dark blue background, gold chip rectangle and
five text draws. -/
def mkDefaultCardImage : ImageData :=
  { width := 340
    height := 220
    background := ⟨30, 58, 138⟩
    ops :=
      [ .rect 20 20 70 60 ⟨255, 215, 0⟩
      , .text 170 110 "FLEECE CARD" ⟨255, 255, 255⟩
      , .text 40 160 "•••• •••• •••• ••••" ⟨255, 255, 255⟩
      , .text 40 185 "CARDHOLDER NAME" ⟨200, 200, 200⟩
      , .text 280 185 "VALID THRU" ⟨200, 200, 200⟩
      , .text 280 200 "MM/YY" ⟨255, 255, 255⟩ ] }

/-- The heap of live PIL image objects; references are list indices. -/
abbrev Heap := List ImageData

/-- Allocate a fresh image object, returning the new heap and the
reference of the new object. -/
def alloc (h : Heap) (d : ImageData) : Heap × Nat :=
  (h ++ [d], h.length)

/-- Read the object a reference points to (total, with the placeholder
recipe as the out-of-range default; all claims keep references in range). -/
def heapGet (h : Heap) (r : Nat) : ImageData :=
  h.getD r mkDefaultCardImage

/-- In-place mutation of the image object at reference `r` (e.g. a caller
drawing on a returned PIL image). -/
def setImage (h : Heap) (r : Nat) (d : ImageData) : Heap :=
  h.set r d

/-- Result of one call to the embedded `display_card_image`: the reference
of the returned image (`none` for Python `None`), the successor module
state, the successor heap, and whether an HTTP request was issued. -/
structure DisplayResult where
  image : Option Nat
  state : ImageServiceState
  heap : Heap
  net : Bool

/-- The fallback tail of `display_card_image` (image_service.py lines
125-147): return `DEFAULT_CARD_IMAGE.copy()` when the pre-generated image
is available (the copy is a fresh heap object with the same contents),
else regenerate a default image from the same drawing recipe. -/
def displayFallback (defaultImage : Option Nat) (st : ImageServiceState)
    (h : Heap) (net : Bool) : DisplayResult :=
  match defaultImage with
  | some p =>
      let (h2, r) := alloc h (heapGet h p)
      ⟨some r, st, h2, net⟩
  | none =>
      let (h2, r) := alloc h mkDefaultCardImage
      ⟨some r, st, h2, net⟩

/-- `display_card_image` (image_service.py lines 92-147).  `dec` embeds
`Image.open(BytesIO(content))`: `.ok img` when the bytes decode, `.error`
when PIL raises.  `defaultImage` is the module global `DEFAULT_CARD_IMAGE`
(a heap reference, or `none` if pre-generation failed).  Note `if
content:` is Python truthiness: both `None` and empty bytes fall through
to the fallback. -/
def display_card_image (dec : ByteSeq → Except Unit ImageData)
    (defaultImage : Option Nat) (st : ImageServiceState) (h : Heap)
    (url : String) (now : Nat) (outcome : FetchOutcome) : DisplayResult :=
  let f := cached_image_fetch st url now outcome
  match f.result with
  | some content =>
      if content.isEmpty then displayFallback defaultImage f.state h f.net
      else
        match dec content with
        | .ok img =>
            let (h2, r) := alloc h img
            ⟨some r, f.state, h2, f.net⟩
        | .error _ => displayFallback defaultImage f.state h f.net
  | none => displayFallback defaultImage f.state h f.net

/-!
Persistence layer of `pages/my_credit_cards.py`: `load_user_cards` /
`save_user_cards` over the single JSON document `user_cards.json`.

The Python standard library's `json.dump` / `json.load` are not part of
this repository; they are modelled value-faithfully: a file written by
`json.dump(v)` is represented as `FileContent.jsonDoc v`, which
`json.load` parses back to `v`; a file whose text is not valid JSON is
`FileContent.corrupt s`, on which `json.load` raises.  A write failure is
modelled as the `open(..., 'w')` call raising, leaving the file as it
was.
-/

/-- JSON values, as produced and consumed by `json.dump` / `json.load`. -/
inductive Json where
  | null : Json
  | bool (b : Bool) : Json
  | num (n : Int) : Json
  | str (s : String) : Json
  | arr (xs : List Json) : Json
  | obj (fields : List (String × Json)) : Json

/-- Contents of the `user_cards.json` file: either text that parses as a
JSON value, or text that is not valid JSON. -/
inductive FileContent where
  | jsonDoc (j : Json) : FileContent
  | corrupt (s : String) : FileContent

/-- The file system as seen through `USER_CARDS_FILE`: `none` when
`os.path.exists` is false. -/
abbrev FileSystem := Option FileContent

/-- Result of `load_user_cards`: the returned value and the error messages
shown with `st.error`. -/
structure LoadResult where
  value : Json
  errors : List String

/-- `load_user_cards` (my_credit_cards.py lines 63-88), with a fresh read
of the file (the `st.cache_data` layer cleared): if the file exists, try
`json.load`; on a parse error show `st.error` and return `[]`; if the
file does not exist return `[]`. -/
def load_user_cards (fs : FileSystem) : LoadResult :=
  match fs with
  | some (.jsonDoc j) => ⟨j, []⟩
  | some (.corrupt _) => ⟨.arr [], ["Error loading your cards"]⟩
  | none => ⟨.arr [], []⟩

/-- Result of `save_user_cards`: the file system afterwards, the boolean
return value, and the error messages shown with `st.error`. -/
structure SaveResult where
  fs : FileSystem
  ok : Bool
  errors : List String

/-- `save_user_cards(cards)` (my_credit_cards.py lines 91-115): write the
whole list with `json.dump` and return `True`; on a write failure show
`st.error` and return `False`.  `writeOk` is the oracle for whether the
file write succeeds. -/
def save_user_cards (fs : FileSystem) (writeOk : Bool) (cards : List Json) :
    SaveResult :=
  if writeOk then ⟨some (.jsonDoc (.arr cards)), true, []⟩
  else ⟨fs, false, ["Error saving your cards"]⟩

/-- A user card record, with the fields built by the Add Card form
(my_credit_cards.py lines 337-346). -/
structure UserCard where
  name : String
  lastFour : String
  annualFee : String
  creditLimit : Int
  rewards : String
  expiration : String
  imageUrl : String
  dateAdded : String
deriving DecidableEq

/-- The `new_card` dictionary of my_credit_cards.py lines 337-346 as a
JSON object, field names as in the source. -/
def encodeCard (c : UserCard) : Json :=
  .obj
    [ ("name", .str c.name)
    , ("last_four", .str c.lastFour)
    , ("annual_fee", .str c.annualFee)
    , ("credit_limit", .num c.creditLimit)
    , ("rewards", .str c.rewards)
    , ("expiration", .str c.expiration)
    , ("image_url", .str c.imageUrl)
    , ("date_added", .str c.dateAdded) ]

/-- Field access `card['k']` / `card.get('k')` on a JSON object. -/
def jsonField (j : Json) (k : String) : Option Json :=
  match j with
  | .obj fields => (fields.find? (fun f => f.1 == k)).map (fun f => f.2)
  | _ => none

/-- Read a string field. -/
def asStr (j : Option Json) : Option String :=
  match j with
  | some (.str s) => some s
  | _ => none

/-- Read a numeric field. -/
def asNum (j : Option Json) : Option Int :=
  match j with
  | some (.num n) => some n
  | _ => none

/-- Read a user card record back from its JSON object, the fields the
page accesses (`card['name']`, `card.get('last_four')`, ...). -/
def decodeCard (j : Json) : Option UserCard := do
  let name ← asStr (jsonField j "name")
  let lastFour ← asStr (jsonField j "last_four")
  let annualFee ← asStr (jsonField j "annual_fee")
  let creditLimit ← asNum (jsonField j "credit_limit")
  let rewards ← asStr (jsonField j "rewards")
  let expiration ← asStr (jsonField j "expiration")
  let imageUrl ← asStr (jsonField j "image_url")
  let dateAdded ← asStr (jsonField j "date_added")
  pure ⟨name, lastFour, annualFee, creditLimit, rewards, expiration, imageUrl, dateAdded⟩

/-- Read a whole persisted card list back. -/
def decodeCards (j : Json) : Option (List UserCard) :=
  match j with
  | .arr xs => xs.mapM decodeCard
  | _ => none

/-- Result of the Add Card submission flow: the in-memory `user_cards`
list afterwards, the file system, whether the save reported success, and
the error messages shown. -/
structure AddCardResult where
  cards : List Json
  fs : FileSystem
  saved : Bool
  errors : List String

/-- The Add Card submission handler (my_credit_cards.py lines 335-355):
append `new_card` to the in-memory `user_cards`, then call
`save_user_cards(user_cards)`.  Nothing rolls the append back when the
save fails. -/
def addCardSubmit (userCards : List Json) (fs : FileSystem) (writeOk : Bool)
    (newCard : Json) : AddCardResult :=
  let cards := userCards ++ [newCard]
  let s := save_user_cards fs writeOk cards
  ⟨cards, s.fs, s.ok, s.errors⟩

/-- In a state where the dict cache and the memo table both hold the bytes
`b` for `url` (the memo entry having timestamp-free priority, the dict
entry timestamp `t`), as produced by a 200 response whose body does not
decode.  This is the invariant behind claim C9. -/
def cachedUndecodable (url : String) (b : ByteSeq) (t : Nat)
    (st : ImageServiceState) : Prop :=
  memoLookup st.lruMemo url = some (some b) ∧
  lookupCache st.imageCache url = some (t, b)

/-! Helper lemmas about the cache primitives. -/

/-- Storing under a URL makes lookup of that URL return the new entry. -/
theorem lookupCache_store_self (c : ImageCache) (url : String) (now : Nat)
    (b : ByteSeq) : lookupCache (storeCache c url now b) url = some (now, b) := by
  simp [lookupCache, storeCache, List.find?_cons_of_pos]

/-- Memoising under a URL makes memo lookup of that URL return the value. -/
theorem memoLookup_insert_self (m : LruMemo) (url : String) (v : Option ByteSeq) :
    memoLookup (memoInsert m url v) url = some v := by
  have h32 : memoInsert m url v = (url, v) :: m.take 31 := rfl
  simp [memoLookup, h32, List.find?_cons_of_pos]

/-- Refreshing recency does not change the memoised value. -/
theorem memoLookup_memoTouch (m : LruMemo) (url : String) :
    memoLookup (memoTouch m url) url = memoLookup m url := by
  unfold memoTouch
  cases hfind : m.find? (fun e => e.1 == url) with
  | none => rfl
  | some e =>
      have he := List.find?_some
        (p := fun (e2 : String × Option ByteSeq) => e2.1 == url) hfind
      show ((e :: m.filter (fun e2 => !(e2.1 == url))).find?
          (fun e2 => e2.1 == url)).map (fun e2 => e2.2)
        = (m.find? (fun e2 => e2.1 == url)).map (fun e2 => e2.2)
      rw [List.find?_cons_of_pos
        (p := fun (e2 : String × Option ByteSeq) => e2.1 == url) _ he, hfind]

/-- Reading the cell just allocated at the end of the heap. -/
theorem heapGet_append_self (h : Heap) (d : ImageData) :
    heapGet (h ++ [d]) h.length = d := by
  simp [heapGet, List.getD_eq_getElem?_getD,
    List.getElem?_append_right (le_refl h.length)]

/-- Allocation does not change existing cells. -/
theorem heapGet_append_lt (h : Heap) (d : ImageData) (i : Nat)
    (hi : i < h.length) : heapGet (h ++ [d]) i = heapGet h i := by
  simp [heapGet, List.getD_eq_getElem?_getD, List.getElem?_append_left hi]

/-- Mutating one cell does not change a different cell. -/
theorem heapGet_set_ne (h : Heap) (i j : Nat) (d : ImageData) (hij : i ≠ j) :
    heapGet (setImage h i d) j = heapGet h j := by
  simp [heapGet, setImage, List.getD_eq_getElem?_getD, List.getElem?_set_ne hij]

/-! Helper lemmas characterising one call to `cached_image_fetch`. -/

/-- Unmemoised, uncached call whose GET raises: returns `None`, memoises
the `None`, leaves the dict cache alone, and counts as a network request. -/
theorem cached_image_fetch_exn (st : ImageServiceState) (url : String)
    (now : Nat)
    (h1 : memoLookup st.lruMemo url = none)
    (h2 : lookupCache st.imageCache url = none) :
    cached_image_fetch st url now .exn =
      ⟨none, ⟨st.imageCache, memoInsert st.lruMemo url none⟩, true⟩ := by
  simp [cached_image_fetch, h1, cachedImageFetchBody, h2, fetchAndStore,
    requestsGet]

/-- Unmemoised, uncached call whose GET returns a non-200 status: returns
`None`, memoises the `None`, leaves the dict cache alone. -/
theorem cached_image_fetch_non200 (st : ImageServiceState) (url : String)
    (now : Nat) (s : Nat) (b : ByteSeq)
    (h1 : memoLookup st.lruMemo url = none)
    (h2 : lookupCache st.imageCache url = none)
    (hs : s ≠ 200) :
    cached_image_fetch st url now (.resp s b) =
      ⟨none, ⟨st.imageCache, memoInsert st.lruMemo url none⟩, true⟩ := by
  simp [cached_image_fetch, h1, cachedImageFetchBody, h2, fetchAndStore,
    requestsGet, hs]

/-- Unmemoised, uncached call whose GET returns 200: stores the body in
the dict cache with the current time, memoises it, and returns it. -/
theorem cached_image_fetch_200 (st : ImageServiceState) (url : String)
    (now : Nat) (b : ByteSeq)
    (h1 : memoLookup st.lruMemo url = none)
    (h2 : lookupCache st.imageCache url = none) :
    cached_image_fetch st url now (.resp 200 b) =
      ⟨some b, ⟨storeCache st.imageCache url now b,
        memoInsert st.lruMemo url (some b)⟩, true⟩ := by
  simp [cached_image_fetch, h1, cachedImageFetchBody, h2, fetchAndStore,
    requestsGet]

/-- Unmemoised call finding an expired dict entry and getting a 200:
refetches, overwriting the stale entry. -/
theorem cached_image_fetch_expired (st : ImageServiceState) (url : String)
    (now t : Nat) (content b : ByteSeq)
    (h1 : memoLookup st.lruMemo url = none)
    (h2 : lookupCache st.imageCache url = some (t, content))
    (hexp : ¬ (now - t < CACHE_EXPIRY)) :
    cached_image_fetch st url now (.resp 200 b) =
      ⟨some b, ⟨storeCache st.imageCache url now b,
        memoInsert st.lruMemo url (some b)⟩, true⟩ := by
  simp only [cached_image_fetch, h1, cachedImageFetchBody, h2]
  rw [if_neg hexp]
  simp [fetchAndStore, requestsGet]

/-- A memoised call returns the memoised value without running the body:
no expiry check, no network request, dict cache untouched. -/
theorem cached_image_fetch_memoHit (st : ImageServiceState) (url : String)
    (now : Nat) (outcome : FetchOutcome) (v : Option ByteSeq)
    (hm : memoLookup st.lruMemo url = some v) :
    cached_image_fetch st url now outcome =
      ⟨v, ⟨st.imageCache, memoTouch st.lruMemo url⟩, false⟩ := by
  simp [cached_image_fetch, hm]

/-! Helper lemmas characterising one call to `display_card_image`. -/

/-- The fallback with `DEFAULT_CARD_IMAGE` available allocates a copy of
it at the end of the heap. -/
theorem displayFallback_some (p : Nat) (st : ImageServiceState) (h : Heap)
    (netv : Bool) :
    displayFallback (some p) st h netv =
      ⟨some h.length, st, h ++ [heapGet h p], netv⟩ := rfl

/-- When the fetch step returns `None`, `display_card_image` takes the
fallback path. -/
theorem display_eq_fallback_of_result_none
    (dec : ByteSeq → Except Unit ImageData) (di : Option Nat)
    (st : ImageServiceState) (h : Heap) (url : String) (now : Nat)
    (outcome : FetchOutcome)
    (hres : (cached_image_fetch st url now outcome).result = none) :
    display_card_image dec di st h url now outcome =
      displayFallback di (cached_image_fetch st url now outcome).state h
        (cached_image_fetch st url now outcome).net := by
  simp [display_card_image, hres]

/-- When the fetch step returns nonempty bytes that fail to decode,
`display_card_image` takes the fallback path. -/
theorem display_eq_fallback_of_undecodable
    (dec : ByteSeq → Except Unit ImageData) (di : Option Nat)
    (st : ImageServiceState) (h : Heap) (url : String) (now : Nat)
    (outcome : FetchOutcome) (b : ByteSeq)
    (hres : (cached_image_fetch st url now outcome).result = some b)
    (hb : b.isEmpty = false) (hdec : dec b = .error ()) :
    display_card_image dec di st h url now outcome =
      displayFallback di (cached_image_fetch st url now outcome).state h
        (cached_image_fetch st url now outcome).net := by
  simp [display_card_image, hres, hb, hdec]

/-- Decoding a card's JSON object recovers the card. -/
theorem decodeCard_encodeCard (c : UserCard) :
    decodeCard (encodeCard c) = some c := rfl

/-- Decoding an encoded card list recovers the list, in order. -/
theorem decodeCards_encode (cards : List UserCard) :
    decodeCards (Json.arr (cards.map encodeCard)) = some cards := by
  induction cards with
  | nil => rfl
  | cons c cs ih =>
      simp only [decodeCards] at ih ⊢
      rw [List.map_cons, List.mapM_cons, decodeCard_encodeCard, ih]
      rfl

/-- C2: for a URL (not yet memoised or cached) whose HTTP GET returns
status 200, `cached_image_fetch` issues the network request, stores
`(now, body)` in `IMAGE_CACHE` under the URL and returns the body; a
second call with the same URL within the expiry window returns the same
bytes without a network request. -/
theorem cached_image_fetch_200_caches_and_second_call_hits
    (st : ImageServiceState) (url : String) (now now2 : Nat) (body : ByteSeq)
    (out2 : FetchOutcome)
    (h1 : memoLookup st.lruMemo url = none)
    (h2 : lookupCache st.imageCache url = none)
    (hwin : now2 - now < CACHE_EXPIRY) :
    (cached_image_fetch st url now (.resp 200 body)).net = true ∧
    (cached_image_fetch st url now (.resp 200 body)).result = some body ∧
    lookupCache (cached_image_fetch st url now (.resp 200 body)).state.imageCache
      url = some (now, body) ∧
    (cached_image_fetch (cached_image_fetch st url now (.resp 200 body)).state
      url now2 out2).result = some body ∧
    (cached_image_fetch (cached_image_fetch st url now (.resp 200 body)).state
      url now2 out2).net = false := by
  have _hwin := hwin
  rw [cached_image_fetch_200 st url now body h1 h2]
  refine ⟨rfl, rfl, lookupCache_store_self _ _ _ _, ?_, ?_⟩ <;>
    rw [cached_image_fetch_memoHit _ url now2 out2 (some body)
      (memoLookup_insert_self _ _ _)]

/-- Witness for C2 at a concrete input: fresh state, URL `"u"`, body
`[7]`, second call one second later with an erroring GET. -/
theorem cached_image_fetch_200_caches_and_second_call_hits_witness :
    memoLookup initState.lruMemo "u" = none ∧
    lookupCache initState.imageCache "u" = none ∧
    (1 : Nat) - 0 < CACHE_EXPIRY ∧
    ((cached_image_fetch initState "u" 0 (.resp 200 [7])).net = true ∧
     (cached_image_fetch initState "u" 0 (.resp 200 [7])).result = some [7] ∧
     lookupCache (cached_image_fetch initState "u" 0
       (.resp 200 [7])).state.imageCache "u" = some (0, [7]) ∧
     (cached_image_fetch (cached_image_fetch initState "u" 0
       (.resp 200 [7])).state "u" 1 .exn).result = some [7] ∧
     (cached_image_fetch (cached_image_fetch initState "u" 0
       (.resp 200 [7])).state "u" 1 .exn).net = false) :=
  ⟨rfl, rfl, by decide,
    cached_image_fetch_200_caches_and_second_call_hits initState "u" 0 1 [7]
      .exn rfl rfl (by decide)⟩

/-- Counterexample to C3 as stated: after a successful fetch of `"u"` at
time 0, a call at time `CACHE_EXPIRY + 1` (one second past expiry) issues
NO new network request and returns the stale cached bytes `[1]`, because
the `functools.lru_cache` memoisation around `cached_image_fetch`
short-circuits the body before the expiry check. -/
theorem stale_bytes_returned_after_expiry :
    (cached_image_fetch (cached_image_fetch initState "u" 0
      (.resp 200 [1])).state "u" (CACHE_EXPIRY + 1) (.resp 200 [2])).net
      = false ∧
    (cached_image_fetch (cached_image_fetch initState "u" 0
      (.resp 200 [1])).state "u" (CACHE_EXPIRY + 1) (.resp 200 [2])).result
      = some [1] :=
  ⟨rfl, rfl⟩

/-- C3 (amended): given a URL whose cache entry carries timestamp `t`,
PROVIDED the URL's result is not held by the lru_cache memoisation (e.g.
its memo entry has been evicted), a call to `cached_image_fetch` at
`t + CACHE_EXPIRY + 1` triggers a new network request rather than
returning the stale cached bytes, and overwrites the entry. -/
theorem expired_entry_refetched_when_unmemoised
    (st : ImageServiceState) (url : String) (t : Nat) (content b : ByteSeq)
    (h1 : memoLookup st.lruMemo url = none)
    (h2 : lookupCache st.imageCache url = some (t, content)) :
    (cached_image_fetch st url (t + CACHE_EXPIRY + 1) (.resp 200 b)).net
      = true ∧
    (cached_image_fetch st url (t + CACHE_EXPIRY + 1) (.resp 200 b)).result
      = some b ∧
    lookupCache (cached_image_fetch st url (t + CACHE_EXPIRY + 1)
      (.resp 200 b)).state.imageCache url = some (t + CACHE_EXPIRY + 1, b) := by
  rw [cached_image_fetch_expired st url (t + CACHE_EXPIRY + 1) t content b h1
    h2 (by omega)]
  exact ⟨rfl, rfl, lookupCache_store_self _ _ _ _⟩

/-- Witness for the amended C3 at a concrete input: a state whose dict
cache holds `("u", (0, [1]))` and whose memo table is empty. -/
theorem expired_entry_refetched_when_unmemoised_witness :
    memoLookup (ImageServiceState.mk [("u", 0, [1])] []).lruMemo "u" = none ∧
    lookupCache (ImageServiceState.mk [("u", 0, [1])] []).imageCache "u"
      = some (0, [1]) ∧
    ((cached_image_fetch (ImageServiceState.mk [("u", 0, [1])] []) "u"
      (0 + CACHE_EXPIRY + 1) (.resp 200 [2])).net = true ∧
     (cached_image_fetch (ImageServiceState.mk [("u", 0, [1])] []) "u"
      (0 + CACHE_EXPIRY + 1) (.resp 200 [2])).result = some [2] ∧
     lookupCache (cached_image_fetch (ImageServiceState.mk [("u", 0, [1])] [])
      "u" (0 + CACHE_EXPIRY + 1) (.resp 200 [2])).state.imageCache "u"
      = some (0 + CACHE_EXPIRY + 1, [2])) :=
  ⟨rfl, rfl,
    expired_entry_refetched_when_unmemoised (ImageServiceState.mk
      [("u", 0, [1])] []) "u" 0 [1] [2] rfl rfl⟩

/-- C4: saving any list of card records and reloading the store (with a
fresh read of the file) yields the saved sequence, element for element
and in order: the reloaded JSON equals the written JSON array, and
decoding it recovers exactly the saved records. -/
theorem save_then_load_roundtrip (fs : FileSystem) (cards : List UserCard) :
    (save_user_cards fs true (cards.map encodeCard)).ok = true ∧
    (load_user_cards (save_user_cards fs true (cards.map encodeCard)).fs).value
      = Json.arr (cards.map encodeCard) ∧
    decodeCards (load_user_cards
      (save_user_cards fs true (cards.map encodeCard)).fs).value
      = some cards :=
  ⟨rfl, rfl, decodeCards_encode cards⟩

/-- C7: when the user-cards JSON file does not exist, `load_user_cards`
returns the empty list and reports no error. -/
theorem load_user_cards_missing_file_empty :
    (load_user_cards none).value = Json.arr [] ∧
    (load_user_cards none).errors = [] :=
  ⟨rfl, rfl⟩

/-- C10: when the user-cards file exists but does not parse as JSON,
`load_user_cards` does not raise: it reports an error message and
returns the empty list, as for a missing file. -/
theorem load_user_cards_corrupt_file_empty (s : String) :
    (load_user_cards (some (.corrupt s))).value = Json.arr [] ∧
    (load_user_cards (some (.corrupt s))).errors ≠ [] ∧
    (load_user_cards (some (.corrupt s))).value = (load_user_cards none).value := by
  refine ⟨rfl, ?_, rfl⟩
  simp [load_user_cards]

/-- C8: when the file write fails, the Add Card flow reports an error,
`save_user_cards` returns `False`, the in-memory list still holds the
appended card (the mutation is not rolled back), and the file is
untouched. -/
theorem addCard_write_failure_reports_and_keeps_memory
    (userCards : List Json) (fs : FileSystem) (newCard : Json) :
    (addCardSubmit userCards fs false newCard).saved = false ∧
    (addCardSubmit userCards fs false newCard).errors ≠ [] ∧
    (addCardSubmit userCards fs false newCard).cards = userCards ++ [newCard] ∧
    (addCardSubmit userCards fs false newCard).fs = fs := by
  refine ⟨rfl, ?_, rfl, rfl⟩
  simp [addCardSubmit, save_user_cards]

/-- C1: for a URL (not already memoised or cached) whose GET raises a
network error or times out (`.exn`) or returns a non-200 status, no
exception propagates out of the fetch step — `cached_image_fetch`
returns `None` — and `display_card_image`, with the pre-generated
placeholder available at heap reference `p`, returns (non-null) a fresh
copy of that placeholder. -/
theorem display_card_image_fetch_error_returns_placeholder
    (dec : ByteSeq → Except Unit ImageData) (st : ImageServiceState)
    (h : Heap) (p : Nat) (url : String) (now : Nat) (outcome : FetchOutcome)
    (h1 : memoLookup st.lruMemo url = none)
    (h2 : lookupCache st.imageCache url = none)
    (h3 : outcome = .exn ∨ ∃ s b, outcome = .resp s b ∧ s ≠ 200) :
    (cached_image_fetch st url now outcome).result = none ∧
    (display_card_image dec (some p) st h url now outcome).image
      = some h.length ∧
    heapGet (display_card_image dec (some p) st h url now outcome).heap
      h.length = heapGet h p := by
  have hres : (cached_image_fetch st url now outcome).result = none := by
    rcases h3 with rfl | ⟨s, b, rfl, hs⟩
    · rw [cached_image_fetch_exn st url now h1 h2]
    · rw [cached_image_fetch_non200 st url now s b h1 h2 hs]
  refine ⟨hres, ?_, ?_⟩ <;>
    rw [display_eq_fallback_of_result_none dec (some p) st h url now outcome
      hres, displayFallback_some]
  exact heapGet_append_self h (heapGet h p)

/-- Witness for C1 at a concrete input: a heap holding only the
placeholder, reference 0, URL `"https://bad.url"`, a raising GET. -/
theorem display_card_image_fetch_error_returns_placeholder_witness :
    memoLookup initState.lruMemo "https://bad.url" = none ∧
    lookupCache initState.imageCache "https://bad.url" = none ∧
    (FetchOutcome.exn = FetchOutcome.exn ∨
      ∃ s b, FetchOutcome.exn = FetchOutcome.resp s b ∧ s ≠ 200) ∧
    ((cached_image_fetch initState "https://bad.url" 0 .exn).result = none ∧
     (display_card_image (fun _ => Except.error ()) (some 0) initState
       [mkDefaultCardImage] "https://bad.url" 0 .exn).image = some 1 ∧
     heapGet (display_card_image (fun _ => Except.error ()) (some 0) initState
       [mkDefaultCardImage] "https://bad.url" 0 .exn).heap 1
       = heapGet [mkDefaultCardImage] 0) :=
  ⟨rfl, rfl, Or.inl rfl,
    display_card_image_fetch_error_returns_placeholder
      (fun _ => Except.error ()) initState [mkDefaultCardImage] 0
      "https://bad.url" 0 .exn rfl rfl (Or.inl rfl)⟩

/-- C6: when the fetch of a URL (not memoised or cached) fails with a
network error, the image `display_card_image` returns is 340 wide and
220 high — the placeholder's fixed size — given that the pre-generated
placeholder (at heap reference `p`) is the default card image. -/
theorem display_card_image_network_error_dimensions
    (dec : ByteSeq → Except Unit ImageData) (st : ImageServiceState)
    (h : Heap) (p : Nat) (url : String) (now : Nat)
    (h1 : memoLookup st.lruMemo url = none)
    (h2 : lookupCache st.imageCache url = none)
    (h3 : heapGet h p = mkDefaultCardImage) :
    (display_card_image dec (some p) st h url now .exn).image
      = some h.length ∧
    (heapGet (display_card_image dec (some p) st h url now .exn).heap
      h.length).width = 340 ∧
    (heapGet (display_card_image dec (some p) st h url now .exn).heap
      h.length).height = 220 := by
  have hres : (cached_image_fetch st url now .exn).result = none := by
    rw [cached_image_fetch_exn st url now h1 h2]
  refine ⟨?_, ?_, ?_⟩ <;>
    rw [display_eq_fallback_of_result_none dec (some p) st h url now .exn
      hres, displayFallback_some]
  · rw [heapGet_append_self h (heapGet h p), h3]
    rfl
  · rw [heapGet_append_self h (heapGet h p), h3]
    rfl

/-- Witness for C6 at a concrete input: `display_card_image` on
`"https://bad.url"` with a raising GET returns an image of size
340 x 220. -/
theorem display_card_image_network_error_dimensions_witness :
    memoLookup initState.lruMemo "https://bad.url" = none ∧
    lookupCache initState.imageCache "https://bad.url" = none ∧
    heapGet [mkDefaultCardImage] 0 = mkDefaultCardImage ∧
    ((display_card_image (fun _ => Except.error ()) (some 0) initState
       [mkDefaultCardImage] "https://bad.url" 0 .exn).image = some 1 ∧
     (heapGet (display_card_image (fun _ => Except.error ()) (some 0)
       initState [mkDefaultCardImage] "https://bad.url" 0 .exn).heap 1).width
       = 340 ∧
     (heapGet (display_card_image (fun _ => Except.error ()) (some 0)
       initState [mkDefaultCardImage] "https://bad.url" 0 .exn).heap 1).height
       = 220) :=
  ⟨rfl, rfl, rfl,
    display_card_image_network_error_dimensions (fun _ => Except.error ())
      initState [mkDefaultCardImage] 0 "https://bad.url" 0 rfl rfl rfl⟩

/-- Two successive allocations of the same contents `c` at the end of a
heap give distinct cells, both reading back `c`; mutating either cell
changes neither the other nor the original cell `p`. -/
theorem two_copies_heap_facts (h : Heap) (c img : ImageData) (p : Nat)
    (hp : p < h.length) :
    heapGet ((h ++ [c]) ++ [c]) p = heapGet h p ∧
    heapGet ((h ++ [c]) ++ [c]) h.length = c ∧
    heapGet ((h ++ [c]) ++ [c]) (h.length + 1) = c ∧
    heapGet (setImage ((h ++ [c]) ++ [c]) h.length img) (h.length + 1) = c ∧
    heapGet (setImage ((h ++ [c]) ++ [c]) h.length img) p = heapGet h p ∧
    heapGet (setImage ((h ++ [c]) ++ [c]) (h.length + 1) img) h.length = c ∧
    heapGet (setImage ((h ++ [c]) ++ [c]) (h.length + 1) img) p
      = heapGet h p := by
  have hl1 : h.length < (h ++ [c]).length := by simp
  have hp2 : p < (h ++ [c]).length := by
    simp only [List.length_append, List.length_cons, List.length_nil]
    omega
  have e1 : heapGet ((h ++ [c]) ++ [c]) h.length = c := by
    rw [heapGet_append_lt _ _ _ hl1, heapGet_append_self]
  have hlen : (h ++ [c]).length = h.length + 1 := by simp
  have e2 : heapGet ((h ++ [c]) ++ [c]) (h.length + 1) = c := by
    rw [← hlen, heapGet_append_self]
  have ep : heapGet ((h ++ [c]) ++ [c]) p = heapGet h p := by
    rw [heapGet_append_lt _ _ _ hp2, heapGet_append_lt _ _ _ hp]
  refine ⟨ep, e1, e2, ?_, ?_, ?_, ?_⟩
  · rw [heapGet_set_ne _ _ _ _ (by omega), e2]
  · rw [heapGet_set_ne _ _ _ _ (by omega), ep]
  · rw [heapGet_set_ne _ _ _ _ (by omega), e1]
  · rw [heapGet_set_ne _ _ _ _ (by omega), ep]

/-- C5: two calls to `display_card_image` that both fall back to the
pre-generated placeholder (fetch raising each time) return distinct,
independent copies: the first returns reference `h.length`, the second
`h.length + 1`, both holding the placeholder's contents; mutating either
returned image leaves the other and the stored placeholder at `p`
unchanged. -/
theorem display_card_image_placeholder_copies_independent
    (dec : ByteSeq → Except Unit ImageData) (st : ImageServiceState)
    (h : Heap) (p : Nat) (url : String) (now1 now2 : Nat) (img : ImageData)
    (h1 : memoLookup st.lruMemo url = none)
    (h2 : lookupCache st.imageCache url = none)
    (hp : p < h.length) :
    (display_card_image dec (some p) st h url now1 .exn).image
      = some h.length ∧
    (display_card_image dec (some p)
      (display_card_image dec (some p) st h url now1 .exn).state
      (display_card_image dec (some p) st h url now1 .exn).heap
      url now2 .exn).image = some (h.length + 1) ∧
    heapGet (display_card_image dec (some p)
      (display_card_image dec (some p) st h url now1 .exn).state
      (display_card_image dec (some p) st h url now1 .exn).heap
      url now2 .exn).heap p = heapGet h p ∧
    heapGet (display_card_image dec (some p)
      (display_card_image dec (some p) st h url now1 .exn).state
      (display_card_image dec (some p) st h url now1 .exn).heap
      url now2 .exn).heap h.length = heapGet h p ∧
    heapGet (display_card_image dec (some p)
      (display_card_image dec (some p) st h url now1 .exn).state
      (display_card_image dec (some p) st h url now1 .exn).heap
      url now2 .exn).heap (h.length + 1) = heapGet h p ∧
    heapGet (setImage (display_card_image dec (some p)
      (display_card_image dec (some p) st h url now1 .exn).state
      (display_card_image dec (some p) st h url now1 .exn).heap
      url now2 .exn).heap h.length img) (h.length + 1) = heapGet h p ∧
    heapGet (setImage (display_card_image dec (some p)
      (display_card_image dec (some p) st h url now1 .exn).state
      (display_card_image dec (some p) st h url now1 .exn).heap
      url now2 .exn).heap h.length img) p = heapGet h p ∧
    heapGet (setImage (display_card_image dec (some p)
      (display_card_image dec (some p) st h url now1 .exn).state
      (display_card_image dec (some p) st h url now1 .exn).heap
      url now2 .exn).heap (h.length + 1) img) h.length = heapGet h p ∧
    heapGet (setImage (display_card_image dec (some p)
      (display_card_image dec (some p) st h url now1 .exn).state
      (display_card_image dec (some p) st h url now1 .exn).heap
      url now2 .exn).heap (h.length + 1) img) p = heapGet h p := by
  have hres1 : (cached_image_fetch st url now1 .exn).result = none := by
    rw [cached_image_fetch_exn st url now1 h1 h2]
  have hA : display_card_image dec (some p) st h url now1 .exn =
      ⟨some h.length, ⟨st.imageCache, memoInsert st.lruMemo url none⟩,
        h ++ [heapGet h p], true⟩ := by
    rw [display_eq_fallback_of_result_none dec (some p) st h url now1 .exn
      hres1, cached_image_fetch_exn st url now1 h1 h2, displayFallback_some]
  have hm : memoLookup (ImageServiceState.mk st.imageCache
      (memoInsert st.lruMemo url none)).lruMemo url = some none :=
    memoLookup_insert_self _ _ _
  have hres2 : (cached_image_fetch (ImageServiceState.mk st.imageCache
      (memoInsert st.lruMemo url none)) url now2 .exn).result = none := by
    rw [cached_image_fetch_memoHit _ url now2 .exn none hm]
  have hB : display_card_image dec (some p)
      (ImageServiceState.mk st.imageCache (memoInsert st.lruMemo url none))
      (h ++ [heapGet h p]) url now2 .exn =
      ⟨some (h.length + 1),
        ⟨st.imageCache, memoTouch (memoInsert st.lruMemo url none) url⟩,
        (h ++ [heapGet h p]) ++ [heapGet (h ++ [heapGet h p]) p], false⟩ := by
    rw [display_eq_fallback_of_result_none dec (some p) _ _ url now2 .exn
      hres2, cached_image_fetch_memoHit _ url now2 .exn none hm,
      displayFallback_some]
    simp
  obtain ⟨ep, e1, e2, f1, f2, f3, f4⟩ :=
    two_copies_heap_facts h (heapGet h p) img p hp
  simp only [hA, hB, heapGet_append_lt h (heapGet h p) p hp]
  exact ⟨trivial, trivial, ep, e1, e2, f1, f2, f3, f4⟩

/-- Witness for C5 at a concrete input: heap `[mkDefaultCardImage]`,
placeholder reference 0, two fallback calls on URL `"u"`, mutation with a
1 x 1 black image. -/
theorem display_card_image_placeholder_copies_independent_witness :
    memoLookup initState.lruMemo "u" = none ∧
    lookupCache initState.imageCache "u" = none ∧
    0 < ([mkDefaultCardImage] : Heap).length ∧
    ((display_card_image (fun _ => Except.error ()) (some 0) initState
       [mkDefaultCardImage] "u" 0 .exn).image = some 1 ∧
     (display_card_image (fun _ => Except.error ()) (some 0)
       (display_card_image (fun _ => Except.error ()) (some 0) initState
         [mkDefaultCardImage] "u" 0 .exn).state
       (display_card_image (fun _ => Except.error ()) (some 0) initState
         [mkDefaultCardImage] "u" 0 .exn).heap
       "u" 1 .exn).image = some 2 ∧
     heapGet (display_card_image (fun _ => Except.error ()) (some 0)
       (display_card_image (fun _ => Except.error ()) (some 0) initState
         [mkDefaultCardImage] "u" 0 .exn).state
       (display_card_image (fun _ => Except.error ()) (some 0) initState
         [mkDefaultCardImage] "u" 0 .exn).heap
       "u" 1 .exn).heap 0 = heapGet [mkDefaultCardImage] 0 ∧
     heapGet (display_card_image (fun _ => Except.error ()) (some 0)
       (display_card_image (fun _ => Except.error ()) (some 0) initState
         [mkDefaultCardImage] "u" 0 .exn).state
       (display_card_image (fun _ => Except.error ()) (some 0) initState
         [mkDefaultCardImage] "u" 0 .exn).heap
       "u" 1 .exn).heap 1 = heapGet [mkDefaultCardImage] 0 ∧
     heapGet (display_card_image (fun _ => Except.error ()) (some 0)
       (display_card_image (fun _ => Except.error ()) (some 0) initState
         [mkDefaultCardImage] "u" 0 .exn).state
       (display_card_image (fun _ => Except.error ()) (some 0) initState
         [mkDefaultCardImage] "u" 0 .exn).heap
       "u" 1 .exn).heap 2 = heapGet [mkDefaultCardImage] 0 ∧
     heapGet (setImage (display_card_image (fun _ => Except.error ()) (some 0)
       (display_card_image (fun _ => Except.error ()) (some 0) initState
         [mkDefaultCardImage] "u" 0 .exn).state
       (display_card_image (fun _ => Except.error ()) (some 0) initState
         [mkDefaultCardImage] "u" 0 .exn).heap
       "u" 1 .exn).heap 1 (ImageData.mk 1 1 ⟨0, 0, 0⟩ [])) 2
       = heapGet [mkDefaultCardImage] 0 ∧
     heapGet (setImage (display_card_image (fun _ => Except.error ()) (some 0)
       (display_card_image (fun _ => Except.error ()) (some 0) initState
         [mkDefaultCardImage] "u" 0 .exn).state
       (display_card_image (fun _ => Except.error ()) (some 0) initState
         [mkDefaultCardImage] "u" 0 .exn).heap
       "u" 1 .exn).heap 1 (ImageData.mk 1 1 ⟨0, 0, 0⟩ [])) 0
       = heapGet [mkDefaultCardImage] 0 ∧
     heapGet (setImage (display_card_image (fun _ => Except.error ()) (some 0)
       (display_card_image (fun _ => Except.error ()) (some 0) initState
         [mkDefaultCardImage] "u" 0 .exn).state
       (display_card_image (fun _ => Except.error ()) (some 0) initState
         [mkDefaultCardImage] "u" 0 .exn).heap
       "u" 1 .exn).heap 2 (ImageData.mk 1 1 ⟨0, 0, 0⟩ [])) 1
       = heapGet [mkDefaultCardImage] 0 ∧
     heapGet (setImage (display_card_image (fun _ => Except.error ()) (some 0)
       (display_card_image (fun _ => Except.error ()) (some 0) initState
         [mkDefaultCardImage] "u" 0 .exn).state
       (display_card_image (fun _ => Except.error ()) (some 0) initState
         [mkDefaultCardImage] "u" 0 .exn).heap
       "u" 1 .exn).heap 2 (ImageData.mk 1 1 ⟨0, 0, 0⟩ [])) 0
       = heapGet [mkDefaultCardImage] 0) :=
  ⟨rfl, rfl, by decide,
    display_card_image_placeholder_copies_independent
      (fun _ => Except.error ()) initState [mkDefaultCardImage] 0 "u" 0 1
      (ImageData.mk 1 1 ⟨0, 0, 0⟩ []) rfl rfl (by decide)⟩

/-- C9: a 200 response whose (nonempty) body fails to decode is stored in
both caches, and `display_card_image` returns the placeholder.  From any
state carrying that entry (`cachedUndecodable`), a later
`display_card_image` call with the same URL — whatever the network would
do — issues no network request, returns the placeholder again, and
leaves the entry in place: a decode failure never invalidates or removes
the cache entry. -/
theorem display_card_image_undecodable_bytes_stay_cached
    (dec : ByteSeq → Except Unit ImageData) (url : String) (b : ByteSeq)
    (p : Nat) (h hh : Heap) (st st2 : ImageServiceState)
    (now t now2 : Nat) (out2 : FetchOutcome)
    (hb : b.isEmpty = false) (hdec : dec b = .error ())
    (h1 : memoLookup st.lruMemo url = none)
    (h2 : lookupCache st.imageCache url = none)
    (hinv : cachedUndecodable url b t st2) :
    (display_card_image dec (some p) st h url now (.resp 200 b)).image
      = some h.length ∧
    heapGet (display_card_image dec (some p) st h url now
      (.resp 200 b)).heap h.length = heapGet h p ∧
    cachedUndecodable url b now
      (display_card_image dec (some p) st h url now (.resp 200 b)).state ∧
    (display_card_image dec (some p) st2 hh url now2 out2).net = false ∧
    (display_card_image dec (some p) st2 hh url now2 out2).image
      = some hh.length ∧
    heapGet (display_card_image dec (some p) st2 hh url now2 out2).heap
      hh.length = heapGet hh p ∧
    cachedUndecodable url b t
      (display_card_image dec (some p) st2 hh url now2 out2).state := by
  obtain ⟨hm2, hc2⟩ := hinv
  have e1 := cached_image_fetch_200 st url now b h1 h2
  have hres1 : (cached_image_fetch st url now (.resp 200 b)).result
      = some b := by rw [e1]
  have hD1 : display_card_image dec (some p) st h url now (.resp 200 b) =
      ⟨some h.length, ⟨storeCache st.imageCache url now b,
        memoInsert st.lruMemo url (some b)⟩, h ++ [heapGet h p], true⟩ := by
    rw [display_eq_fallback_of_undecodable dec (some p) st h url now
      (.resp 200 b) b hres1 hb hdec, e1, displayFallback_some]
  have e2 := cached_image_fetch_memoHit st2 url now2 out2 (some b) hm2
  have hres2 : (cached_image_fetch st2 url now2 out2).result = some b := by
    rw [e2]
  have hD2 : display_card_image dec (some p) st2 hh url now2 out2 =
      ⟨some hh.length, ⟨st2.imageCache, memoTouch st2.lruMemo url⟩,
        hh ++ [heapGet hh p], false⟩ := by
    rw [display_eq_fallback_of_undecodable dec (some p) st2 hh url now2 out2
      b hres2 hb hdec, e2, displayFallback_some]
  refine ⟨?_, ?_, ?_, ?_, ?_, ?_, ?_⟩
  · rw [hD1]
  · rw [hD1]
    exact heapGet_append_self h (heapGet h p)
  · rw [hD1]
    exact ⟨memoLookup_insert_self _ _ _, lookupCache_store_self _ _ _ _⟩
  · rw [hD2]
  · rw [hD2]
  · rw [hD2]
    exact heapGet_append_self hh (heapGet hh p)
  · rw [hD2]
    exact ⟨(memoLookup_memoTouch st2.lruMemo url).trans hm2, hc2⟩

/-- Witness for C9 at a concrete input: body `[1]`, URL `"u"`, first call
at time 5 from the fresh state; preservation exercised from the state
holding `("u", (0, [1]))` in the dict cache and `("u", Some [1])` in the
memo table, at time 6 with a GET that would raise. -/
theorem display_card_image_undecodable_bytes_stay_cached_witness :
    ([1] : ByteSeq).isEmpty = false ∧
    (fun (_ : ByteSeq) => (Except.error () : Except Unit ImageData)) [1]
      = .error () ∧
    memoLookup initState.lruMemo "u" = none ∧
    lookupCache initState.imageCache "u" = none ∧
    cachedUndecodable "u" [1] 0
      (ImageServiceState.mk [("u", 0, [1])] [("u", some [1])]) ∧
    ((display_card_image (fun _ => Except.error ()) (some 0) initState
       [mkDefaultCardImage] "u" 5 (.resp 200 [1])).image = some 1 ∧
     heapGet (display_card_image (fun _ => Except.error ()) (some 0)
       initState [mkDefaultCardImage] "u" 5 (.resp 200 [1])).heap 1
       = heapGet [mkDefaultCardImage] 0 ∧
     cachedUndecodable "u" [1] 5
       (display_card_image (fun _ => Except.error ()) (some 0) initState
         [mkDefaultCardImage] "u" 5 (.resp 200 [1])).state ∧
     (display_card_image (fun _ => Except.error ()) (some 0)
       (ImageServiceState.mk [("u", 0, [1])] [("u", some [1])])
       [mkDefaultCardImage] "u" 6 .exn).net = false ∧
     (display_card_image (fun _ => Except.error ()) (some 0)
       (ImageServiceState.mk [("u", 0, [1])] [("u", some [1])])
       [mkDefaultCardImage] "u" 6 .exn).image = some 1 ∧
     heapGet (display_card_image (fun _ => Except.error ()) (some 0)
       (ImageServiceState.mk [("u", 0, [1])] [("u", some [1])])
       [mkDefaultCardImage] "u" 6 .exn).heap 1
       = heapGet [mkDefaultCardImage] 0 ∧
     cachedUndecodable "u" [1] 0
       (display_card_image (fun _ => Except.error ()) (some 0)
         (ImageServiceState.mk [("u", 0, [1])] [("u", some [1])])
         [mkDefaultCardImage] "u" 6 .exn).state) :=
  ⟨rfl, rfl, rfl, rfl, ⟨rfl, rfl⟩,
    display_card_image_undecodable_bytes_stay_cached
      (fun _ => Except.error ()) "u" [1] 0 [mkDefaultCardImage]
      [mkDefaultCardImage] initState
      (ImageServiceState.mk [("u", 0, [1])] [("u", some [1])]) 5 0 6 .exn
      rfl rfl rfl rfl ⟨rfl, rfl⟩⟩
